import Mathlib

/-!
Verification of the session supervisor in `src/server/ProcessSessionManager.ts`
(repository vibecraft_windows).

The TypeScript class `ProcessSessionManager` keeps a `Map<string, ManagedProcess>`
of supervised child processes, a monotone `sessionCounter`, and emits events
(`output`, `exit`, `error`, `statusChange`).  We embed the manager state as an
association list preserving insertion order (as a JS `Map` does), each operation
as a pure function from state (plus an environment for the nondeterministic
inputs: `randomUUID`, `Date.now`, the resolved CLI path, the spawned process
handle) to state, result, and the list of synchronously emitted events.

The stdout/stderr/exit/error callbacks installed by `createSession` are
closures over the session object and over the local `id` value minted at
creation time.  We embed each callback as a function on the session record;
the captured `id` is stored in the model field `handlersId` (it is set at
creation and — faithfully to the source — never rewritten by `restart`,
which only overwrites `session.id`).
-/

namespace PSM

/-- `ManagedProcess.status` in the source: `'idle' | 'working' | 'waiting' | 'offline'`. -/
inductive Status where
  | idle
  | working
  | waiting
  | offline
deriving DecidableEq

/-- Model of a writable stdin stream (`session.process.stdin`).  `written` is the
sequence of strings passed to `write`; `writeRaises` models a `write` call that
throws (stream already closed / destroyed), which the source catches. -/
structure StdinStream where
  written : List String
  writeRaises : Bool
deriving DecidableEq

/-- Model of a Node `ChildProcess` handle: the fields the manager reads.
`killed` and `exitCode` are read by `checkHealth`; `stdin` by `sendInput` and
`interrupt`; `pid` by `kill`. -/
structure ChildProc where
  pid : Nat
  killed : Bool
  exitCode : Option Int
  stdin : Option StdinStream
deriving DecidableEq

/-- The `ManagedProcess` record of the source, plus the model field
`handlersId`: the `id` value captured by the stdout/stderr/exit/error closures
installed in `createSession`.  At creation `handlersId = id`; `restart`
overwrites `id` but not the closures, hence not `handlersId`. -/
structure ManagedProcess where
  id : String
  name : String
  process : ChildProc
  status : Status
  cwd : String
  createdAt : Nat
  lastActivity : Nat
  outputBuffer : List String
  claudeSessionId : Option String
  handlersId : String
deriving DecidableEq

/-- `CreateProcessOptions.flags`.  The source field `continue` is spelled
`continueFlag` here (`continue` is a Lean keyword). -/
structure Flags where
  continueFlag : Option Bool
  skipPermissions : Option Bool
  chrome : Option Bool
deriving DecidableEq

/-- `CreateProcessOptions`. -/
structure CreateProcessOptions where
  name : Option String
  cwd : Option String
  flags : Option Flags
deriving DecidableEq

/-- Events emitted via `this.emit(...)` (`ProcessManagerEvents` in the source).
The error payload is modelled by its message string. -/
inductive Event where
  | output (sessionId : String) (data : String)
  | exit (sessionId : String) (code : Option Int)
  | error (sessionId : String) (msg : String)
  | statusChange (sessionId : String) (status : Status)
deriving DecidableEq

/-- The manager's mutable state: `private sessions = new Map<string, ManagedProcess>()`
and `private sessionCounter = 0`.  The map is an insertion-ordered association list. -/
structure ManagerState where
  sessions : List (String × ManagedProcess)
  sessionCounter : Nat
deriving DecidableEq

/-- `Map.get`: the value at the first matching key. -/
def mapGet (m : List (String × ManagedProcess)) (k : String) : Option ManagedProcess :=
  (m.find? (fun p => p.1 = k)).map (fun p => p.2)

/-- `Map.set`: replace in place if the key is present (a JS `Map` keeps the
original insertion position), otherwise append. -/
def mapSet (m : List (String × ManagedProcess)) (k : String) (v : ManagedProcess) :
    List (String × ManagedProcess) :=
  if m.any (fun p => p.1 = k) then
    m.map (fun p => if p.1 = k then (k, v) else p)
  else
    m ++ [(k, v)]

/-- `Map.delete`: remove the entry under `k`. -/
def mapDelete (m : List (String × ManagedProcess)) (k : String) :
    List (String × ManagedProcess) :=
  m.filter (fun p => p.1 ≠ k)

/-- `const MAX_OUTPUT_BUFFER_LINES = 500`. -/
def MAX_OUTPUT_BUFFER_LINES : Nat := 500

/-- JS `text.split('\n')` on the character list: split at every newline
character; `n` separators yield `n + 1` fields, empty fields included. -/
def splitNlChars : List Char → List (List Char)
  | [] => [[]]
  | c :: rest =>
    match splitNlChars rest with
    | [] => [[]]
    | l :: ls => if c = '\n' then [] :: l :: ls else (c :: l) :: ls

/-- JS `text.split('\n')`. -/
def lineSplit (text : String) : List String :=
  (splitNlChars text.data).map (fun l => String.mk l)

/-- `getSessions()`: `Array.from(this.sessions.values())`. -/
def getSessions (st : ManagerState) : List ManagedProcess :=
  st.sessions.map (fun p => p.2)

/-- `getSession(id)`: `this.sessions.get(id)`. -/
def getSession (st : ManagerState) (id : String) : Option ManagedProcess :=
  mapGet st.sessions id

/-- `appendOutput` (private): split the chunk on newlines, push every line,
then if the buffer exceeds `MAX_OUTPUT_BUFFER_LINES` keep `slice(-500)`,
i.e. the last 500 entries.  Returned here as the new buffer value. -/
def appendOutput (buffer : List String) (text : String) : List String :=
  let b := buffer ++ lineSplit text
  if MAX_OUTPUT_BUFFER_LINES < b.length then
    b.drop (b.length - MAX_OUTPUT_BUFFER_LINES)
  else
    b

/-- The stdout `data` callback: append to the buffer, refresh `lastActivity`,
emit `output` under the captured id. -/
def handleStdout (now : Nat) (s : ManagedProcess) (data : String) :
    ManagedProcess × List Event :=
  ({ s with outputBuffer := appendOutput s.outputBuffer data, lastActivity := now },
   [Event.output s.handlersId data])

/-- The stderr `data` callback: append prefixed with `[stderr] `, refresh
`lastActivity`; no event is emitted. -/
def handleStderr (now : Nat) (s : ManagedProcess) (data : String) :
    ManagedProcess × List Event :=
  ({ s with outputBuffer := appendOutput s.outputBuffer ("[stderr] " ++ data),
            lastActivity := now },
   [])

/-- The process `exit` callback: set status to `offline` unconditionally, emit
`exit` with the process exit code and then `statusChange offline`, both under
the captured id. -/
def handleExit (s : ManagedProcess) (code : Option Int) :
    ManagedProcess × List Event :=
  ({ s with status := Status.offline },
   [Event.exit s.handlersId code, Event.statusChange s.handlersId Status.offline])

/-- The process `error` callback: set status to `offline` unconditionally, emit
`error` and then `statusChange offline`, both under the captured id. -/
def handleProcError (s : ManagedProcess) (msg : String) :
    ManagedProcess × List Event :=
  ({ s with status := Status.offline },
   [Event.error s.handlersId msg, Event.statusChange s.handlersId Status.offline])

/-- Argument construction in `createSession`: `-c` unless `continue === false`,
the two permission flags unless `skipPermissions === false`, `--chrome` when
`chrome` is truthy. -/
def buildArgs (flags : Flags) : List String :=
  (if flags.continueFlag ≠ some false then ["-c"] else []) ++
  (if flags.skipPermissions ≠ some false then
    ["--permission-mode=bypassPermissions", "--dangerously-skip-permissions"]
   else []) ++
  (if flags.chrome = some true then ["--chrome"] else [])

/-- Environment consumed by one `createSession` call: the fresh `randomUUID()`,
`Date.now()`, `process.cwd()`, the result of `findClaudePath()` (`none` models
"not found"), and the handle returned by `spawn`. -/
structure SpawnEnv where
  uuid : String
  now : Nat
  processCwd : String
  claudePath : Option String
  spawned : ChildProc
deriving DecidableEq

/-- `createSession(options)`.  The counter is incremented first; if
`findClaudePath()` yields nothing the call throws (`Except.error`) with the
counter already bumped but the registry untouched.  On success the new record
is registered under the fresh id in `idle` status with an empty buffer, and
the installed callbacks capture that id (`handlersId = uuid`).  No event is
emitted synchronously. -/
def createSession (env : SpawnEnv) (options : CreateProcessOptions)
    (st : ManagerState) : Except String ManagedProcess × ManagerState :=
  let counter := st.sessionCounter + 1
  let id := env.uuid
  let name := options.name.getD ("Claude " ++ toString counter)
  let cwd := options.cwd.getD env.processCwd
  match env.claudePath with
  | none =>
      (Except.error "Claude CLI not found. Please ensure it is installed and in PATH.",
       { st with sessionCounter := counter })
  | some _ =>
      let session : ManagedProcess :=
        { id := id, name := name, process := env.spawned, status := Status.idle,
          cwd := cwd, createdAt := env.now, lastActivity := env.now,
          outputBuffer := [], claudeSessionId := none, handlersId := id }
      (Except.ok session,
       { sessions := mapSet st.sessions id session, sessionCounter := counter })

/-- `sendInput(id, input)`: absent session or missing stdin yields `false`;
otherwise write `input + '\n'`, refresh `lastActivity`, return `true`; a
throwing write is caught and yields `false` with nothing updated. -/
def sendInput (now : Nat) (id input : String) (st : ManagerState) :
    Bool × ManagerState :=
  match mapGet st.sessions id with
  | none => (false, st)
  | some session =>
    match session.process.stdin with
    | none => (false, st)
    | some stdin =>
      if stdin.writeRaises then (false, st)
      else
        let stdin' : StdinStream := { stdin with written := stdin.written ++ [input ++ "\n"] }
        let session' : ManagedProcess :=
          { session with process := { session.process with stdin := some stdin' },
                         lastActivity := now }
        (true, { st with sessions := mapSet st.sessions id session' })

/-- `interrupt(id)`: absent session yields `false`.  On Windows the source
writes the control byte 0x03 through the optional-chained stdin (a missing
stdin makes the write a no-op, the call still succeeds); on Unix it sends
SIGINT.  `sigintRaises` models a throwing `process.kill`, caught to `false`. -/
def interrupt (isWindows : Bool) (sigintRaises : Bool) (now : Nat) (id : String)
    (st : ManagerState) : Bool × ManagerState :=
  match mapGet st.sessions id with
  | none => (false, st)
  | some session =>
    if isWindows then
      match session.process.stdin with
      | none =>
        let session' := { session with lastActivity := now }
        (true, { st with sessions := mapSet st.sessions id session' })
      | some stdin =>
        if stdin.writeRaises then (false, st)
        else
          let stdin' : StdinStream := { stdin with written := stdin.written ++ ["\x03"] }
          let session' :=
            { session with process := { session.process with stdin := some stdin' },
                           lastActivity := now }
          (true, { st with sessions := mapSet st.sessions id session' })
    else
      if sigintRaises then (false, st)
      else
        let session' := { session with process := { session.process with killed := true } }
        (true, { st with sessions := mapSet st.sessions id session' })

/-- `kill(id)`: absent session yields `false` with the registry untouched.
Otherwise terminate best-effort and delete the record, returning `true`:
on Windows the `taskkill` call sits in an inner try/catch so a failure
(`taskkillRaises`) is swallowed; on Unix `ChildProcess.kill('SIGTERM')`
reports failure through its Boolean return value (`sigtermFails`) — Node only
throws from `kill` for an invalid signal — so the surrounding catch is never
reached and the deletion always happens. -/
def kill (isWindows taskkillRaises sigtermFails : Bool) (id : String)
    (st : ManagerState) : Bool × ManagerState :=
  match mapGet st.sessions id with
  | none => (false, st)
  | some _ =>
    (true, { st with sessions := mapDelete st.sessions id })

/-- `getOutput(id, lines?)`: absent session yields the empty string.  The
source guards with JS truthiness (`lines ? buffer.slice(-lines) : buffer`),
so `lines = 0` selects the full buffer, exactly like an omitted argument;
a positive `lines` keeps the last `lines` entries.  The result is the
selected lines joined with newlines. -/
def getOutput (st : ManagerState) (id : String) (lines : Option Nat) : String :=
  match mapGet st.sessions id with
  | none => ""
  | some session =>
    let output :=
      match lines with
      | some n =>
        if n = 0 then session.outputBuffer
        else session.outputBuffer.drop (session.outputBuffer.length - n)
      | none => session.outputBuffer
    String.intercalate "\n" output

/-- `const isAlive = session.process && !session.process.killed && session.process.exitCode === null`
(the `process` field is always present on a record). -/
def isAlive (p : ChildProc) : Bool :=
  !p.killed && p.exitCode = none

/-- One session's step of `checkHealth()`: a dead process on a non-offline
record forces `offline` plus a notification; a live process on an `offline`
record forces `idle` plus a notification; otherwise nothing happens.
Notifications here carry `session.id` (the current field, not the captured
handler id). -/
def checkHealthSession (s : ManagedProcess) : ManagedProcess × List Event :=
  if !isAlive s.process && s.status ≠ Status.offline then
    ({ s with status := Status.offline },
     [Event.statusChange s.id Status.offline])
  else if isAlive s.process && s.status = Status.offline then
    ({ s with status := Status.idle },
     [Event.statusChange s.id Status.idle])
  else
    (s, [])

/-- `checkHealth()`: reconcile every registered session in registry order,
collecting the emitted notifications. -/
def checkHealth (st : ManagerState) : ManagerState × List Event :=
  ({ st with sessions := st.sessions.map (fun p => (p.1, (checkHealthSession p.2).1)) },
   (st.sessions.map (fun p => (checkHealthSession p.2).2)).flatten)

/-- `updateStatus(id, status)`: only when the session exists and the new status
differs is the field written and a single `statusChange` emitted; otherwise
the call is a silent no-op. -/
def updateStatus (id : String) (status : Status) (st : ManagerState) :
    ManagerState × List Event :=
  match mapGet st.sessions id with
  | none => (st, [])
  | some session =>
    if session.status ≠ status then
      ({ st with sessions := mapSet st.sessions id { session with status := status } },
       [Event.statusChange id status])
    else
      (st, [])

/-- `linkClaudeSession(managedId, claudeSessionId)`: set the correlation id
when the session exists; silent no-op otherwise. -/
def linkClaudeSession (managedId claudeSessionId : String) (st : ManagerState) :
    ManagerState :=
  match mapGet st.sessions managedId with
  | none => st
  | some session =>
      { st with sessions :=
          mapSet st.sessions managedId { session with claudeSessionId := some claudeSessionId } }

/-- `findByClaudeSession(claudeSessionId)`: linear scan over the registry. -/
def findByClaudeSession (st : ManagerState) (claudeSessionId : String) :
    Option ManagedProcess :=
  (st.sessions.find? (fun p => p.2.claudeSessionId = some claudeSessionId)).map
    (fun p => p.2)

/-- `restart(id)`: absent id returns `null` (`Except.ok none`).  Otherwise kill
the existing record, create a fresh session with the same name and cwd (this
can throw, propagated as `Except.error`), then delete the fresh registry entry,
overwrite the record's `id` with the original one and re-register it under the
original id.  The closures installed by the inner `createSession` keep the
freshly minted id, so `handlersId` is *not* rewritten. -/
def restart (env : SpawnEnv) (isWindows taskkillRaises sigtermFails : Bool)
    (id : String) (st : ManagerState) :
    Except String (Option ManagedProcess) × ManagerState :=
  match mapGet st.sessions id with
  | none => (Except.ok none, st)
  | some existing =>
    let st1 := (kill isWindows taskkillRaises sigtermFails id st).2
    match createSession env
        { name := some existing.name, cwd := some existing.cwd, flags := none } st1 with
    | (Except.error e, st2) => (Except.error e, st2)
    | (Except.ok session, st2) =>
      let session' := { session with id := id }
      (Except.ok (some session'),
       { st2 with sessions := mapSet (mapDelete st2.sessions session.id) id session' })

/-- The lines carried by a sequence of output chunks, in arrival order:
each chunk contributes its newline-split lines (exactly what `appendOutput`
pushes). -/
def chunksToLines (chunks : List String) : List String :=
  (chunks.map (fun c => lineSplit c)).flatten

/-- Deliver a sequence of chunks to an initially empty output buffer. -/
def runAppend (chunks : List String) : List String :=
  chunks.foldl appendOutput []

/-- The record that `restart` registers under the original id: the
`createSession` record for the same name and cwd, with `id` overwritten to the
original id while `handlersId` keeps the freshly minted uuid. -/
def restartedRecord (env : SpawnEnv) (id : String) (existing : ManagedProcess) :
    ManagedProcess :=
  { id := id, name := existing.name, process := env.spawned, status := Status.idle,
    cwd := existing.cwd, createdAt := env.now, lastActivity := env.now,
    outputBuffer := [], claudeSessionId := none, handlersId := env.uuid }

/-! Concrete fixtures used by witnesses and counterexamples. -/

/-- A healthy open stdin stream. -/
def demoStdin : StdinStream := { written := [], writeRaises := false }

/-- A live child process handle. -/
def demoProc : ChildProc :=
  { pid := 41, killed := false, exitCode := none, stdin := some demoStdin }

/-- A registered session in `idle` status. -/
def demoSession : ManagedProcess :=
  { id := "sid-1", name := "Claude 1", process := demoProc, status := Status.idle,
    cwd := "C:\\proj", createdAt := 10, lastActivity := 10,
    outputBuffer := ["a", "b"], claudeSessionId := none, handlersId := "sid-1" }

/-- A manager holding exactly `demoSession` under key `"sid-1"`. -/
def demoState : ManagerState :=
  { sessions := [("sid-1", demoSession)], sessionCounter := 1 }

/-- An environment for a successful spawn minting uuid `"sid-2"`. -/
def demoEnv : SpawnEnv :=
  { uuid := "sid-2", now := 20, processCwd := "C:\\", claudePath := some "claude.exe",
    spawned := demoProc }

/-- `demoEnv` with the CLI lookup failing. -/
def demoEnvNoCli : SpawnEnv := { demoEnv with claudePath := none }

/-- `demoSession` already marked `offline` (e.g. by a health check that ran
before the exit event was delivered). -/
def offlineSession : ManagedProcess := { demoSession with status := Status.offline }

/-- A session whose process has a recorded exit code but whose status is still
`idle` (a silent death `checkHealth` must reconcile). -/
def deadIdleSession : ManagedProcess :=
  { demoSession with
      process := { demoProc with exitCode := some 1, stdin := none } }

/-! ### Registry (JS `Map`) lemmas -/

theorem mapGet_nil (k : String) : mapGet [] k = none := rfl

theorem mapGet_cons (p : String × ManagedProcess) (t : List (String × ManagedProcess))
    (k : String) :
    mapGet (p :: t) k = if p.1 = k then some p.2 else mapGet t k := by
  by_cases h : p.1 = k <;> simp [mapGet, List.find?_cons, h]

theorem mapSet_cons_ne (p : String × ManagedProcess) (t : List (String × ManagedProcess))
    (k : String) (v : ManagedProcess) (hp : p.1 ≠ k) :
    mapSet (p :: t) k v = p :: mapSet t k v := by
  unfold mapSet
  by_cases ht : t.any (fun q => q.1 = k) <;> simp [hp, ht]

theorem mapSet_cons_eq (p : String × ManagedProcess) (t : List (String × ManagedProcess))
    (k : String) (v : ManagedProcess) (hp : p.1 = k) :
    mapSet (p :: t) k v =
      (k, v) :: t.map (fun q => if q.1 = k then (k, v) else q) := by
  simp [mapSet, hp]

theorem mapGet_mapSet_self (m : List (String × ManagedProcess)) (k : String)
    (v : ManagedProcess) : mapGet (mapSet m k v) k = some v := by
  induction m with
  | nil => simp [mapGet, mapSet, List.find?]
  | cons p t ih =>
    by_cases hp : p.1 = k
    · rw [mapSet_cons_eq p t k v hp, mapGet_cons]
      simp
    · rw [mapSet_cons_ne p t k v hp, mapGet_cons]
      simp [hp, ih]

theorem mapGet_map_replace_ne (m : List (String × ManagedProcess)) (k k' : String)
    (v : ManagedProcess) (h : k' ≠ k) :
    mapGet (m.map (fun q => if q.1 = k then (k, v) else q)) k' = mapGet m k' := by
  induction m with
  | nil => rfl
  | cons p t ih =>
    by_cases hp : p.1 = k
    · simp only [List.map_cons, hp, if_true, mapGet_cons]
      have : ¬(k = k') := fun hkk => h hkk.symm
      simp [this, hp, fun hpk : p.1 = k' => h (hp ▸ hpk : k = k').symm, ih]
    · simp only [List.map_cons, hp, if_false, mapGet_cons, ih]

theorem mapGet_mapSet_ne (m : List (String × ManagedProcess)) (k k' : String)
    (v : ManagedProcess) (h : k' ≠ k) :
    mapGet (mapSet m k v) k' = mapGet m k' := by
  induction m with
  | nil =>
    have hdec : decide (k = k') = false := decide_eq_false (fun hk => h hk.symm)
    simp [mapGet, mapSet, List.find?, hdec]
  | cons p t ih =>
    by_cases hp : p.1 = k
    · rw [mapSet_cons_eq p t k v hp, mapGet_cons, mapGet_cons]
      have hk : ¬(k = k') := fun hkk => h hkk.symm
      have hpk : ¬(p.1 = k') := fun hpk => h ((hp ▸ hpk : k = k')).symm
      simp [hk, hpk, mapGet_map_replace_ne t k k' v h]
    · rw [mapSet_cons_ne p t k v hp, mapGet_cons, mapGet_cons, ih]

theorem mapDelete_cons_eq (p : String × ManagedProcess) (t : List (String × ManagedProcess))
    (k : String) (hp : p.1 = k) : mapDelete (p :: t) k = mapDelete t k := by
  simp [mapDelete, hp]

theorem mapDelete_cons_ne (p : String × ManagedProcess) (t : List (String × ManagedProcess))
    (k : String) (hp : p.1 ≠ k) : mapDelete (p :: t) k = p :: mapDelete t k := by
  simp [mapDelete, hp]

theorem mapGet_mapDelete_self (m : List (String × ManagedProcess)) (k : String) :
    mapGet (mapDelete m k) k = none := by
  induction m with
  | nil => rfl
  | cons p t ih =>
    by_cases hp : p.1 = k
    · rw [mapDelete_cons_eq p t k hp, ih]
    · rw [mapDelete_cons_ne p t k hp, mapGet_cons]
      simp [hp, ih]

theorem mapGet_mapDelete_ne (m : List (String × ManagedProcess)) (k k' : String)
    (h : k' ≠ k) : mapGet (mapDelete m k) k' = mapGet m k' := by
  induction m with
  | nil => rfl
  | cons p t ih =>
    by_cases hp : p.1 = k
    · have hpk : ¬(p.1 = k') := fun hpk => h ((hp ▸ hpk : k = k')).symm
      rw [mapDelete_cons_eq p t k hp, mapGet_cons, ih]
      simp [hpk]
    · rw [mapDelete_cons_ne p t k hp, mapGet_cons, mapGet_cons, ih]

theorem mapDelete_map_replace (t : List (String × ManagedProcess)) (k : String)
    (v : ManagedProcess) :
    mapDelete (t.map (fun q => if q.1 = k then (k, v) else q)) k = mapDelete t k := by
  induction t with
  | nil => rfl
  | cons q u ihq =>
    by_cases hq : q.1 = k
    · rw [List.map_cons, if_pos hq, mapDelete_cons_eq (k, v) _ k rfl,
          mapDelete_cons_eq q u k hq, ihq]
    · rw [List.map_cons, if_neg hq, mapDelete_cons_ne q _ k hq,
          mapDelete_cons_ne q u k hq, ihq]

theorem mapDelete_mapSet_self (m : List (String × ManagedProcess)) (k : String)
    (v : ManagedProcess) : mapDelete (mapSet m k v) k = mapDelete m k := by
  induction m with
  | nil => simp [mapDelete, mapSet]
  | cons p t ih =>
    by_cases hp : p.1 = k
    · rw [mapSet_cons_eq p t k v hp, mapDelete_cons_eq (k, v) _ k rfl,
          mapDelete_cons_eq p t k hp, mapDelete_map_replace]
    · rw [mapSet_cons_ne p t k v hp, mapDelete_cons_ne p _ k hp,
          mapDelete_cons_ne p t k hp, ih]

theorem appendOutput_eq_rtake (buffer : List String) (text : String) :
    appendOutput buffer text = (buffer ++ lineSplit text).rtake 500 := by
  simp only [appendOutput, MAX_OUTPUT_BUFFER_LINES, List.rtake]
  split
  · rfl
  · next h =>
    rw [Nat.sub_eq_zero_of_le (by omega), List.drop_zero]

theorem appendOutput_length_le (buffer : List String) (text : String) :
    (appendOutput buffer text).length ≤ 500 := by
  simp only [appendOutput, MAX_OUTPUT_BUFFER_LINES]
  split
  · next h => simp only [List.length_drop]; omega
  · next h => omega

theorem rtake_append_rtake (xs ys : List String) (n : Nat) :
    (xs.rtake n ++ ys).rtake n = (xs ++ ys).rtake n := by
  simp only [List.rtake_eq_reverse_take_reverse, List.reverse_append, List.reverse_reverse]
  congr 1
  rw [List.take_append_eq_append_take, List.take_append_eq_append_take, List.take_take]
  congr 1
  congr 1
  omega

theorem foldl_appendOutput_rtake (chunks : List String) (buffer : List String) :
    chunks.foldl appendOutput (buffer.rtake 500) =
      (buffer ++ chunksToLines chunks).rtake 500 := by
  induction chunks generalizing buffer with
  | nil => simp [chunksToLines]
  | cons c cs ih =>
    rw [List.foldl_cons, appendOutput_eq_rtake, rtake_append_rtake,
        ih (buffer ++ lineSplit c)]
    simp [chunksToLines]

theorem runAppend_eq_rtake (chunks : List String) :
    runAppend chunks = (chunksToLines chunks).rtake 500 := by
  unfold runAppend
  have hnil : ([] : List String) = ([] : List String).rtake 500 := by simp
  rw [hnil, foldl_appendOutput_rtake chunks [], List.nil_append]

theorem mapGet_mem (m : List (String × ManagedProcess)) (k : String)
    (s : ManagedProcess) (h : mapGet m k = some s) : (k, s) ∈ m := by
  induction m with
  | nil => simp [mapGet] at h
  | cons p t ih =>
    rw [mapGet_cons] at h
    by_cases hp : p.1 = k
    · subst hp
      simp only [if_true] at h
      obtain rfl : p.2 = s := Option.some.inj h
      exact List.mem_cons_self p t
    · simp only [hp, if_false] at h
      exact List.mem_cons_of_mem p (ih h)

/-! ### Claim theorems -/

/-- Claim C2: the output buffer never holds more than 500 line entries — one
`appendOutput` step always leaves at most 500 lines — and a sequence of chunks
delivered to an initially empty buffer leaves exactly the most recent 500 of
the arriving lines in arrival order (the suffix obtained by dropping all but
the last 500); in particular when exactly 501 lines have arrived the buffer is
the original line sequence with its first line dropped, so the first retained
line is original line #2. -/
theorem C2_output_buffer_bound :
    (∀ buffer text, (appendOutput buffer text).length ≤ 500) ∧
    (∀ chunks, runAppend chunks =
      (chunksToLines chunks).drop ((chunksToLines chunks).length - 500)) ∧
    (∀ chunks, (chunksToLines chunks).length = 501 →
      runAppend chunks = (chunksToLines chunks).drop 1) := by
  have hmain : ∀ chunks, runAppend chunks =
      (chunksToLines chunks).drop ((chunksToLines chunks).length - 500) :=
    fun chunks => runAppend_eq_rtake chunks
  refine ⟨appendOutput_length_le, hmain, ?_⟩
  intro chunks h
  rw [hmain chunks, h]

set_option maxRecDepth 8192 in
/-- Witness for C2: 501 single-line chunks satisfy the 501-line hypothesis and
leave the drop-one suffix. -/
theorem C2_witness :
    (chunksToLines (List.replicate 501 "ln")).length = 501 ∧
    runAppend (List.replicate 501 "ln") =
      (chunksToLines (List.replicate 501 "ln")).drop 1 := by
  have h : (chunksToLines (List.replicate 501 "ln")).length = 501 := by decide
  exact ⟨h, C2_output_buffer_bound.2.2 (List.replicate 501 "ln") h⟩

/-- Claim C6: every operation on an id absent from the registry returns the
documented absent result, never raises, and leaves the state unchanged:
`getSession` yields `none`, `sendInput` and `interrupt` yield `false`, `kill`
yields `false`, `getOutput` yields the empty string, `restart` yields the null
result, and `updateStatus` and `linkClaudeSession` are silent no-ops (no state
change and, for `updateStatus`, no notification). -/
theorem C6_absent_id_behaviour (id : String) (st : ManagerState)
    (h : mapGet st.sessions id = none) (now : Nat) (input : String)
    (isW sr tkr stf : Bool) (env : SpawnEnv) (status : Status)
    (cid : String) (lines : Option Nat) :
    getSession st id = none ∧
    sendInput now id input st = (false, st) ∧
    interrupt isW sr now id st = (false, st) ∧
    kill isW tkr stf id st = (false, st) ∧
    getOutput st id lines = "" ∧
    restart env isW tkr stf id st = (Except.ok none, st) ∧
    updateStatus id status st = (st, []) ∧
    linkClaudeSession id cid st = st := by
  refine ⟨?_, ?_, ?_, ?_, ?_, ?_, ?_, ?_⟩ <;>
    simp [getSession, sendInput, interrupt, kill, getOutput, restart,
          updateStatus, linkClaudeSession, h]

/-- Witness for C6 at the unregistered id `"nope"` on a nonempty registry. -/
theorem C6_witness :
    mapGet demoState.sessions "nope" = none ∧
    getSession demoState "nope" = none ∧
    sendInput 5 "nope" "hi" demoState = (false, demoState) ∧
    interrupt true false 5 "nope" demoState = (false, demoState) ∧
    kill true false false "nope" demoState = (false, demoState) ∧
    getOutput demoState "nope" none = "" ∧
    restart demoEnv true false false "nope" demoState = (Except.ok none, demoState) ∧
    updateStatus "nope" Status.working demoState = (demoState, []) ∧
    linkClaudeSession "nope" "csid" demoState = demoState := by
  have h : mapGet demoState.sessions "nope" = none := by decide
  obtain ⟨a, b, c, d, e, f, g, hl⟩ :=
    C6_absent_id_behaviour "nope" demoState h 5 "hi" true false false false demoEnv
      Status.working "csid" none
  exact ⟨h, a, b, c, d, e, f, g, hl⟩

/-- Claim C7: when the CLI executable cannot be located, `createSession`
raises (returns the launch-failure error) and registers nothing — the
registry after the call is exactly the registry before it. -/
theorem C7_create_failure_atomic (env : SpawnEnv) (options : CreateProcessOptions)
    (st : ManagerState) (h : env.claudePath = none) :
    (createSession env options st).1 =
      Except.error "Claude CLI not found. Please ensure it is installed and in PATH." ∧
    (createSession env options st).2.sessions = st.sessions := by
  constructor <;> simp [createSession, h]

/-- Witness for C7: a concrete environment whose CLI lookup fails. -/
theorem C7_witness :
    (createSession demoEnvNoCli { name := none, cwd := none, flags := none } demoState).1 =
      Except.error "Claude CLI not found. Please ensure it is installed and in PATH." ∧
    (createSession demoEnvNoCli { name := none, cwd := none, flags := none } demoState).2.sessions =
      demoState.sessions :=
  C7_create_failure_atomic demoEnvNoCli { name := none, cwd := none, flags := none }
    demoState rfl

/-- Claim C10: for a registered session, `getOutput` with a line limit of 0
returns the entire buffer joined with newlines — the `lines ? ... : ...`
truthiness guard treats 0 like an omitted limit, never as "zero lines". -/
theorem C10_getOutput_zero (st : ManagerState) (id : String) (session : ManagedProcess)
    (h : mapGet st.sessions id = some session) :
    getOutput st id (some 0) = String.intercalate "\n" session.outputBuffer ∧
    getOutput st id (some 0) = getOutput st id none := by
  constructor <;> simp [getOutput, h]

/-- Witness for C10 on a registered session buffering two lines. -/
theorem C10_witness :
    getOutput demoState "sid-1" (some 0) = "a\nb" ∧
    getOutput demoState "sid-1" (some 0) = getOutput demoState "sid-1" none := by
  have h := C10_getOutput_zero demoState "sid-1" demoSession rfl
  refine ⟨?_, h.2⟩
  rw [h.1]
  rfl

/-- Counterexample to claim C3 as stated: the process exit handler is also a
writer of `status`, and on a session that is already `offline` (the process
died and a health check reconciled it before the exit event was delivered) it
leaves the status unchanged yet still emits a `statusChange` notification —
so a notification is emitted although the new status equals the current one. -/
theorem C3_counterexample :
    (handleExit offlineSession none).1.status = offlineSession.status ∧
    (handleExit offlineSession none).2 =
      [Event.exit "sid-1" none, Event.statusChange "sid-1" Status.offline] := by
  exact ⟨rfl, rfl⟩

/-- Claim C3 amended: `updateStatus` and health reconciliation emit
`statusChange` exactly once per actual change and never when the new status
equals the current one; the process exit and error handlers, by contrast, set
the status to `offline` and emit a `statusChange offline` notification
unconditionally, even when the session is already `offline`. -/
theorem C3_statusChange_policy :
    (∀ id status st session, mapGet st.sessions id = some session →
      (session.status ≠ status →
        updateStatus id status st =
          ({ st with
              sessions := mapSet st.sessions id ({ session with status := status }) },
           [Event.statusChange id status])) ∧
      (session.status = status → updateStatus id status st = (st, []))) ∧
    (∀ s, (checkHealthSession s).1.status ≠ s.status →
      (checkHealthSession s).2 =
        [Event.statusChange s.id (checkHealthSession s).1.status]) ∧
    (∀ s, (checkHealthSession s).1.status = s.status →
      (checkHealthSession s).2 = []) ∧
    (∀ s code, (handleExit s code).1.status = Status.offline ∧
      (handleExit s code).2 = [Event.exit s.handlersId code,
        Event.statusChange s.handlersId Status.offline]) ∧
    (∀ s msg, (handleProcError s msg).1.status = Status.offline ∧
      (handleProcError s msg).2 = [Event.error s.handlersId msg,
        Event.statusChange s.handlersId Status.offline]) := by
  refine ⟨?_, ?_, ?_, fun s code => ⟨rfl, rfl⟩, fun s msg => ⟨rfl, rfl⟩⟩
  · intro id status st session h
    constructor
    · intro hne
      simp [updateStatus, h, hne]
    · intro heq
      simp [updateStatus, h, heq]
  · intro s hne
    unfold checkHealthSession at hne ⊢
    split_ifs at hne ⊢ with h1 h2
    · rfl
    · rfl
    · exact absurd rfl hne
  · intro s heq
    unfold checkHealthSession at heq ⊢
    split_ifs at heq ⊢ with h1 h2
    · simp_all
    · simp_all
    · rfl

/-- Witness for the amended C3: a real change through `updateStatus` emits one
notification, a repeated status emits none. -/
theorem C3_witness :
    updateStatus "sid-1" Status.working demoState =
      ({ demoState with
          sessions := mapSet demoState.sessions "sid-1"
            ({ demoSession with status := Status.working }) },
       [Event.statusChange "sid-1" Status.working]) ∧
    updateStatus "sid-1" Status.idle demoState = (demoState, []) := by
  have h := (C3_statusChange_policy.1 "sid-1" Status.working demoState demoSession rfl).1
    (by decide)
  have h' := (C3_statusChange_policy.1 "sid-1" Status.idle demoState demoSession rfl).2 rfl
  exact ⟨h, h'⟩

/-- Claim C4: `kill` on a registered id deletes the record and returns `true`
on every platform and for every outcome of the termination primitive (on
Windows a `taskkill` failure is swallowed by the inner catch; on Unix the
SIGTERM send reports failure through its Boolean return, not an exception);
on an unregistered id it returns `false` and leaves the state unchanged. -/
theorem C4_kill_best_effort (isW tkr stf : Bool) (id : String) (st : ManagerState) :
    (∀ s, mapGet st.sessions id = some s →
      kill isW tkr stf id st = (true, { st with sessions := mapDelete st.sessions id }) ∧
      getSession (kill isW tkr stf id st).2 id = none) ∧
    (mapGet st.sessions id = none → kill isW tkr stf id st = (false, st)) := by
  constructor
  · intro s h
    constructor
    · simp [kill, h]
    · simp [kill, h, getSession, mapGet_mapDelete_self]
  · intro h
    simp [kill, h]

/-- Witness for C4: killing the registered session succeeds and unregisters it
even with every termination flag reporting failure; killing a ghost id fails. -/
theorem C4_witness :
    kill true true true "sid-1" demoState =
      (true, { demoState with sessions := mapDelete demoState.sessions "sid-1" }) ∧
    getSession (kill true true true "sid-1" demoState).2 "sid-1" = none ∧
    kill true true true "ghost" demoState = (false, demoState) := by
  have hr := (C4_kill_best_effort true true true "sid-1" demoState).1 demoSession rfl
  have ha := (C4_kill_best_effort true true true "ghost" demoState).2 (by decide)
  exact ⟨hr.1, hr.2, ha⟩

/-- Claim C5: one `checkHealth` step visits every registered session in
registry order; a dead process ("not alive" is exactly: the handle was killed
or carries a recorded exit code) on a non-`offline` record forces `offline`
with exactly one notification, a live process on an `offline` record forces
`idle` with exactly one notification, and every other record is returned
untouched with no notification. -/
theorem C5_checkHealth_reconciles (st : ManagerState) :
    (checkHealth st).1.sessions =
      st.sessions.map (fun p => (p.1, (checkHealthSession p.2).1)) ∧
    (checkHealth st).2 =
      (st.sessions.map (fun p => (checkHealthSession p.2).2)).flatten ∧
    (∀ p : ChildProc, isAlive p = false ↔ (p.killed = true ∨ p.exitCode ≠ none)) ∧
    (∀ s, isAlive s.process = false → s.status ≠ Status.offline →
      checkHealthSession s =
        ({ s with status := Status.offline }, [Event.statusChange s.id Status.offline])) ∧
    (∀ s, isAlive s.process = true → s.status = Status.offline →
      checkHealthSession s =
        ({ s with status := Status.idle }, [Event.statusChange s.id Status.idle])) ∧
    (∀ s, (isAlive s.process = false → s.status = Status.offline) →
          (isAlive s.process = true → s.status ≠ Status.offline) →
      checkHealthSession s = (s, [])) := by
  refine ⟨rfl, rfl, ?_, ?_, ?_, ?_⟩
  · intro p
    unfold isAlive
    cases hk : p.killed <;> cases he : p.exitCode <;> simp
  · intro s hdead hnoff
    simp [checkHealthSession, hdead, hnoff]
  · intro s halive hoff
    simp [checkHealthSession, halive, hoff]
  · intro s h1 h2
    cases ha : isAlive s.process
    · simp [checkHealthSession, ha, h1 ha]
    · simp [checkHealthSession, ha, h2 ha]

/-- Witness for C5: a session whose process has a recorded exit code while the
record still says `idle` is reconciled to `offline` with one notification. -/
theorem C5_witness :
    isAlive deadIdleSession.process = false ∧
    checkHealthSession deadIdleSession =
      ({ deadIdleSession with status := Status.offline },
       [Event.statusChange "sid-1" Status.offline]) := by
  have h := (C5_checkHealth_reconciles demoState).2.2.2.1 deadIdleSession rfl (by decide)
  exact ⟨rfl, h⟩

/-- Claim C8: `sendInput` on a registered session with an open input stream
writes the text followed by exactly one line terminator, sets `lastActivity`
to the current clock and returns `true`; it returns `false` — never raising —
with the state (hence `lastActivity`) unchanged when the session is absent,
its input stream is unavailable, or the write throws. -/
theorem C8_sendInput_contract (now : Nat) (id input : String) (st : ManagerState) :
    (∀ session stdin, mapGet st.sessions id = some session →
      session.process.stdin = some stdin → stdin.writeRaises = false →
      sendInput now id input st =
        (true, { st with
                  sessions := mapSet st.sessions id
                    ({ session with
                        process := { session.process with
                                      stdin := some ({ stdin with
                                        written := stdin.written ++ [input ++ "\n"] }) },
                        lastActivity := now }) })) ∧
    (mapGet st.sessions id = none → sendInput now id input st = (false, st)) ∧
    (∀ session, mapGet st.sessions id = some session →
      session.process.stdin = none → sendInput now id input st = (false, st)) ∧
    (∀ session stdin, mapGet st.sessions id = some session →
      session.process.stdin = some stdin → stdin.writeRaises = true →
      sendInput now id input st = (false, st)) := by
  refine ⟨?_, ?_, ?_, ?_⟩
  · intro session stdin h hs hw
    simp [sendInput, h, hs, hw]
  · intro h
    simp [sendInput, h]
  · intro session h hs
    simp [sendInput, h, hs]
  · intro session stdin h hs hw
    simp [sendInput, h, hs, hw]

/-- Witness for C8: `"hello"` is written as `"hello\n"` with `lastActivity`
advanced to the call time; an absent id yields `false`. -/
theorem C8_witness :
    sendInput 42 "sid-1" "hello" demoState =
      (true, { demoState with
                sessions := mapSet demoState.sessions "sid-1"
                  ({ demoSession with
                      process := { demoProc with
                                    stdin := some ({ demoStdin with
                                      written := ["hello\n"] }) },
                      lastActivity := 42 }) }) ∧
    sendInput 42 "ghost" "hello" demoState = (false, demoState) := by
  have h1 := (C8_sendInput_contract 42 "sid-1" "hello" demoState).1 demoSession demoStdin
    rfl rfl rfl
  have h2 := (C8_sendInput_contract 42 "ghost" "hello" demoState).2.1 (by decide)
  exact ⟨h1, h2⟩

theorem restart_eq (env : SpawnEnv) (isW tkr stf : Bool) (id : String)
    (st : ManagerState) (existing : ManagedProcess) (cp : String)
    (hreg : mapGet st.sessions id = some existing)
    (hcp : env.claudePath = some cp) :
    restart env isW tkr stf id st =
      (Except.ok (some (restartedRecord env id existing)),
       { sessions := mapSet
           (mapDelete
             (mapSet (mapDelete st.sessions id) env.uuid
               ({ restartedRecord env id existing with id := env.uuid }))
             env.uuid)
           id (restartedRecord env id existing),
         sessionCounter := st.sessionCounter + 1 }) := by
  unfold restart kill createSession
  rw [hreg, hcp]
  rfl

/-- Claim C1: restarting a registered session preserves its identifier.
Assuming the registry is well formed (each record's `id` equals its key) and
the freshly minted uuid differs from the id under restart, the call returns
the re-registered record, that record's `id` equals the original id, it is
registered under the original id, the entry minted under the fresh uuid has
been removed, and no registered record other than the one under the original
key carries that id. -/
theorem C1_restart_preserves_id (env : SpawnEnv) (isW tkr stf : Bool)
    (id : String) (st : ManagerState) (existing : ManagedProcess) (cp : String)
    (hreg : mapGet st.sessions id = some existing)
    (hcp : env.claudePath = some cp)
    (hfresh : env.uuid ≠ id)
    (hwf : ∀ p ∈ st.sessions, p.2.id = p.1) :
    (restart env isW tkr stf id st).1 =
      Except.ok (some (restartedRecord env id existing)) ∧
    (restartedRecord env id existing).id = id ∧
    mapGet (restart env isW tkr stf id st).2.sessions id =
      some (restartedRecord env id existing) ∧
    mapGet (restart env isW tkr stf id st).2.sessions env.uuid = none ∧
    (∀ k s, mapGet (restart env isW tkr stf id st).2.sessions k = some s →
      s.id = id → k = id) := by
  rw [restart_eq env isW tkr stf id st existing cp hreg hcp]
  refine ⟨rfl, rfl, mapGet_mapSet_self _ _ _, ?_, ?_⟩
  · rw [mapGet_mapSet_ne _ id env.uuid _ hfresh, mapGet_mapDelete_self]
  · intro k s hk hsid
    by_cases hkid : k = id
    · exact hkid
    · rw [mapGet_mapSet_ne _ id k _ hkid] at hk
      by_cases hku : k = env.uuid
      · subst hku
        rw [mapGet_mapDelete_self] at hk
        exact absurd hk (by simp)
      · rw [mapGet_mapDelete_ne _ env.uuid k hku,
            mapGet_mapSet_ne _ env.uuid k _ hku,
            mapGet_mapDelete_ne _ id k hkid] at hk
        have hmem := mapGet_mem st.sessions k s hk
        have hks : s.id = k := hwf (k, s) hmem
        rw [hsid] at hks
        exact hks.symm

/-- Witness for C1 on the concrete one-session registry. -/
theorem C1_witness :
    (restart demoEnv true false false "sid-1" demoState).1 =
      Except.ok (some (restartedRecord demoEnv "sid-1" demoSession)) ∧
    (restartedRecord demoEnv "sid-1" demoSession).id = "sid-1" ∧
    mapGet (restart demoEnv true false false "sid-1" demoState).2.sessions "sid-1" =
      some (restartedRecord demoEnv "sid-1" demoSession) ∧
    mapGet (restart demoEnv true false false "sid-1" demoState).2.sessions "sid-2" = none ∧
    (∀ k s,
      mapGet (restart demoEnv true false false "sid-1" demoState).2.sessions k = some s →
      s.id = "sid-1" → k = "sid-1") :=
  C1_restart_preserves_id demoEnv true false false "sid-1" demoState demoSession
    "claude.exe" rfl rfl (by decide) (by decide)

/-- Counterexample to claim C9 as stated: after `restart`, the session
registered under `"sid-1"` has the original id, but its exit handler (a
closure wired by the inner `createSession`) emits the `exit` and
`statusChange` notifications under the discarded fresh uuid `"sid-2"`, which
at that point is registered to no session — the notification does not carry
the session's currently registered id. -/
theorem C9_counterexample :
    mapGet (restart demoEnv true false false "sid-1" demoState).2.sessions "sid-1" =
      some (restartedRecord demoEnv "sid-1" demoSession) ∧
    (restartedRecord demoEnv "sid-1" demoSession).id = "sid-1" ∧
    (handleExit (restartedRecord demoEnv "sid-1" demoSession) (some 0)).2 =
      [Event.exit "sid-2" (some 0), Event.statusChange "sid-2" Status.offline] ∧
    mapGet (restart demoEnv true false false "sid-1" demoState).2.sessions "sid-2" =
      none := by
  refine ⟨by decide, rfl, rfl, by decide⟩

/-- Claim C9 amended: exit and error notifications carry the id captured when
their process was spawned.  For a record created by `createSession` that is
the registered id, so the claim holds for sessions that were never restarted;
for the record re-registered by `restart` the captured id is the discarded
freshly minted uuid, not the registered original id. -/
theorem C9_exit_notifications (env : SpawnEnv) :
    (∀ options st session,
      (createSession env options st).1 = Except.ok session →
      session.handlersId = session.id ∧
      (∀ code, (handleExit session code).2 =
        [Event.exit session.id code, Event.statusChange session.id Status.offline]) ∧
      (∀ msg, (handleProcError session msg).2 =
        [Event.error session.id msg, Event.statusChange session.id Status.offline])) ∧
    (∀ isW tkr stf id st r,
      (restart env isW tkr stf id st).1 = Except.ok (some r) →
      r.id = id ∧ r.handlersId = env.uuid ∧
      (∀ code, (handleExit r code).2 =
        [Event.exit env.uuid code, Event.statusChange env.uuid Status.offline])) := by
  constructor
  · intro options st session hok
    cases hcp : env.claudePath with
    | none => simp [createSession, hcp] at hok
    | some cp =>
      simp only [createSession, hcp] at hok
      obtain rfl := Except.ok.inj hok
      exact ⟨rfl, fun code => rfl, fun msg => rfl⟩
  · intro isW tkr stf id st r hok
    cases hm : mapGet st.sessions id with
    | none => simp [restart, hm] at hok
    | some existing =>
      cases hcp : env.claudePath with
      | none => simp [restart, kill, createSession, hm, hcp] at hok
      | some cp =>
        rw [restart_eq env isW tkr stf id st existing cp hm hcp] at hok
        obtain rfl := Option.some.inj (Except.ok.inj hok)
        exact ⟨rfl, rfl, fun code => rfl⟩

/-- Witness for the amended C9: the concrete restarted record keeps the
registered id `"sid-1"` while its handlers notify under `"sid-2"`. -/
theorem C9_witness :
    (restartedRecord demoEnv "sid-1" demoSession).id = "sid-1" ∧
    (restartedRecord demoEnv "sid-1" demoSession).handlersId = "sid-2" ∧
    (handleExit (restartedRecord demoEnv "sid-1" demoSession) none).2 =
      [Event.exit "sid-2" none, Event.statusChange "sid-2" Status.offline] := by
  have h := (C9_exit_notifications demoEnv).2 true false false "sid-1" demoState
    (restartedRecord demoEnv "sid-1" demoSession) (by rfl)
  exact ⟨h.1, h.2.1, h.2.2 none⟩

end PSM
